import Mathlib

/-!
# Keithley 2230 driver — verification of the protocol layer

Shallow embedding of `src/lib.rs` (crate `keithley-2230-series`).

Modelling decisions:
* The transport collaborator (`visa_api::Instrument::write` / `read`) is
  modelled as a scripted oracle: a list of step outcomes consumed in order.
  Every call to `write` logs the attempted command string in a transcript,
  whether or not the transport reports success, and consumes one scripted
  write outcome; every call to `read` consumes one scripted read outcome.
* Rust `f32` measurement values are modelled as exact rationals (`Rat`);
  `str::parse::<f32>` (a standard-library function, not repository code) is
  modelled by `parseF32model`, a decimal-number grammar over `Rat` covering
  the finite-decimal fragment (sign, digits, fraction, exponent; no
  inf/NaN, no rounding).
* Rust `str::trim` (standard library) is modelled by `trimModel`, trimming
  the ASCII whitespace characters; `str::split(',')` is modelled by
  `splitComma`.
* `unreachable!()` in `get_channel` is a process abort, not a returned
  value; driver outcomes therefore live in `RunResult`, which has a
  dedicated `crash` constructor beside `ok` and `err`.
-/

namespace Keithley2230

/-- Opaque transport-layer error (`visa_api::Error`), tagged to keep
distinct failures distinguishable. -/
inductive VisaError where
  | mk (code : Nat)
deriving DecidableEq, Repr

/-- The crate's error type (`enum Error { VisaApiError(visa_api::Error) }`). -/
inductive Error where
  | VisaApiError (e : VisaError)
deriving DecidableEq, Repr

/-- `enum Channel { CH1, CH2, CH3 }`. -/
inductive Channel where
  | CH1
  | CH2
  | CH3
deriving DecidableEq, Repr

/-- `enum PowerSupplyState { ON, OFF }`. -/
inductive PowerSupplyState where
  | ON
  | OFF
deriving DecidableEq, Repr

/-- `enum ChannelOutputState { ON, OFF }`. -/
inductive ChannelOutputState where
  | ON
  | OFF
deriving DecidableEq, Repr

/-- `enum Parallel { ON, OFF }`. -/
inductive Parallel where
  | ON
  | OFF
deriving DecidableEq, Repr

/-- `enum Series { ON, OFF }`. -/
inductive Series where
  | ON
  | OFF
deriving DecidableEq, Repr

/-- `impl Display for Channel` (lib.rs lines 46–54). -/
def Channel.toWire : Channel → String
  | Channel.CH1 => "CH1"
  | Channel.CH2 => "CH2"
  | Channel.CH3 => "CH3"

/-- `impl Display for PowerSupplyState` (lib.rs lines 56–63). -/
def PowerSupplyState.toWire : PowerSupplyState → String
  | PowerSupplyState.ON => "ON"
  | PowerSupplyState.OFF => "OFF"

/-- `impl Display for ChannelOutputState` (lib.rs lines 65–72). -/
def ChannelOutputState.toWire : ChannelOutputState → String
  | ChannelOutputState.ON => "ON"
  | ChannelOutputState.OFF => "OFF"

/-- One scripted outcome of the transport oracle. -/
inductive StepOutcome where
  | writeOk
  | writeErr (e : VisaError)
  | readOk (s : String)
  | readErr (e : VisaError)
deriving DecidableEq, Repr

/-- Transport state: the remaining script, and the transcript of every
command string passed to the transport write primitive so far. -/
structure TS where
  script : List StepOutcome
  writes : List String
deriving DecidableEq, Repr

/-- `visa_api::Instrument::write`: logs the attempted command, consumes one
scripted write outcome. A script mismatch (exhausted script or a read
outcome at the head) is reported as a transport error. -/
def tWrite (st : TS) (cmd : String) : TS × Except VisaError Unit :=
  match st.script with
  | StepOutcome.writeOk :: rest =>
      (⟨rest, st.writes ++ [cmd]⟩, Except.ok ())
  | StepOutcome.writeErr e :: rest =>
      (⟨rest, st.writes ++ [cmd]⟩, Except.error e)
  | other =>
      (⟨other, st.writes ++ [cmd]⟩, Except.error (VisaError.mk 0))

/-- `visa_api::Instrument::read`: consumes one scripted read outcome. -/
def tRead (st : TS) : TS × Except VisaError String :=
  match st.script with
  | StepOutcome.readOk s :: rest => (⟨rest, st.writes⟩, Except.ok s)
  | StepOutcome.readErr e :: rest => (⟨rest, st.writes⟩, Except.error e)
  | other => (⟨other, st.writes⟩, Except.error (VisaError.mk 0))

/-- Outcome of one driver operation: a returned value, a returned error,
or a process abort (`unreachable!()` / panic). -/
inductive RunResult (α : Type) where
  | ok (a : α)
  | err (e : Error)
  | crash
deriving DecidableEq, Repr

/-- Models Rust `char::is_whitespace` restricted to the ASCII whitespace
characters that instrument responses can contain. -/
def isWsChar (c : Char) : Bool :=
  c = ' ' || c = '\t' || c = '\n' || c = '\r'

/-- Models Rust `str::trim` (standard library) over ASCII whitespace. -/
def trimModel (s : String) : String :=
  String.mk (((s.data.dropWhile isWsChar).reverse.dropWhile isWsChar).reverse)

/-- The channel-token match of `get_channel` (lib.rs lines 115–120),
with `none` standing for the `unreachable!()` arm. -/
def parseChannelToken (t : String) : Option Channel :=
  if t = "CH1" then some Channel.CH1
  else if t = "CH2" then some Channel.CH2
  else if t = "CH3" then some Channel.CH3
  else none

/-- `get_channel` (lib.rs lines 112–122): write `"INST?"`, read one line,
decode the trimmed token; an unrecognized token hits `unreachable!()`,
modelled as `RunResult.crash`. -/
def get_channel (st : TS) : TS × RunResult Channel :=
  match tWrite st "INST?" with
  | (st1, Except.error e) => (st1, RunResult.err (Error.VisaApiError e))
  | (st1, Except.ok _) =>
    match tRead st1 with
    | (st2, Except.error e) => (st2, RunResult.err (Error.VisaApiError e))
    | (st2, Except.ok response) =>
      match parseChannelToken (trimModel response) with
      | some c => (st2, RunResult.ok c)
      | none => (st2, RunResult.crash)

/-- `select_channel` (lib.rs lines 124–128): write `"INST <CH>"`. -/
def select_channel (st : TS) (channel : Channel) : TS × RunResult Unit :=
  match tWrite st ("INST " ++ channel.toWire) with
  | (st1, Except.ok _) => (st1, RunResult.ok ())
  | (st1, Except.error e) => (st1, RunResult.err (Error.VisaApiError e))

/-- `enable_channel` (lib.rs lines 97–110): save the selected channel,
select the target, toggle `CHAN:OUTP`, restore the saved channel; the
`?` operator aborts the sequence at the first failure. -/
def enable_channel (st : TS) (channel : Channel) (state : ChannelOutputState) :
    TS × RunResult Unit :=
  match get_channel st with
  | (st1, RunResult.err e) => (st1, RunResult.err e)
  | (st1, RunResult.crash) => (st1, RunResult.crash)
  | (st1, RunResult.ok previous_channel) =>
    match select_channel st1 channel with
    | (st2, RunResult.err e) => (st2, RunResult.err e)
    | (st2, RunResult.crash) => (st2, RunResult.crash)
    | (st2, RunResult.ok _) =>
      match tWrite st2 ("CHAN:OUTP " ++ state.toWire) with
      | (st3, Except.error e) => (st3, RunResult.err (Error.VisaApiError e))
      | (st3, Except.ok _) =>
        match select_channel st3 previous_channel with
        | (st4, RunResult.err e) => (st4, RunResult.err e)
        | (st4, RunResult.crash) => (st4, RunResult.crash)
        | (st4, RunResult.ok _) => (st4, RunResult.ok ())

/-- `enable_output` (lib.rs lines 85–89): write `"OUTP:ENAB <STATE>"`. -/
def enable_output (st : TS) (state : PowerSupplyState) : TS × RunResult Unit :=
  match tWrite st ("OUTP:ENAB " ++ state.toWire) with
  | (st1, Except.ok _) => (st1, RunResult.ok ())
  | (st1, Except.error e) => (st1, RunResult.err (Error.VisaApiError e))

/-- `enable_channels` (lib.rs lines 91–95): write `"OUTP:ENAB <STATE>"`. -/
def enable_channels (st : TS) (state : ChannelOutputState) : TS × RunResult Unit :=
  match tWrite st ("OUTP:ENAB " ++ state.toWire) with
  | (st1, Except.ok _) => (st1, RunResult.ok ())
  | (st1, Except.error e) => (st1, RunResult.err (Error.VisaApiError e))

/-- `set_channel` (lib.rs lines 79–83): write `"APPL <CH>, <v>, <c>"`.
The voltage and current arguments arrive as their rendered decimal
strings, since the `f32` `Display` rendering is a standard-library
function outside this repository. -/
def set_channel (st : TS) (channel : Channel) (voltage current : String) :
    TS × RunResult Unit :=
  match tWrite st ("APPL " ++ channel.toWire ++ ", " ++ voltage ++ ", " ++ current) with
  | (st1, Except.ok _) => (st1, RunResult.ok ())
  | (st1, Except.error e) => (st1, RunResult.err (Error.VisaApiError e))

/-- Value of a digit string, most significant digit first. -/
def digitsToNat (l : List Char) : Nat :=
  l.foldl (fun n c => 10 * n + (c.toNat - 48)) 0

/-- Exact rational value of a parsed decimal `[-]ip.fp e[±]ed`, built
with `mkRat` from an integer numerator and a power-of-ten denominator so
that the kernel can evaluate it (the `Rat` field operations are
irreducible). -/
def decValue (neg : Bool) (ip fp : List Char) (epos : Bool) (ed : Nat) : Rat :=
  let m : Nat := digitsToNat (ip ++ fp)
  let num : Int := if neg then -(m : Int) else (m : Int)
  if epos then mkRat (num * ((10 ^ ed : Nat) : Int)) (10 ^ fp.length)
  else mkRat num (10 ^ fp.length * 10 ^ ed)

/-- Exponent suffix of the decimal grammar: empty, or `e`/`E`, an optional
sign and a nonempty digit run ending the string. -/
def parseExpPart (neg : Bool) (ip fp : List Char) : List Char → Option Rat
  | [] => some (decValue neg ip fp true 0)
  | e :: r =>
    if e = 'e' || e = 'E' then
      let sgnRest : Bool × List Char :=
        match r with
        | '+' :: rr => (true, rr)
        | '-' :: rr => (false, rr)
        | rr => (true, rr)
      let ed := sgnRest.2.takeWhile Char.isDigit
      let rtail := sgnRest.2.dropWhile Char.isDigit
      if ed.isEmpty || !rtail.isEmpty then none
      else some (decValue neg ip fp sgnRest.1 (digitsToNat ed))
    else none

/-- Decimal-number grammar over a character list: optional sign, then
digits with an optional fractional part (at least one digit overall),
then an optional exponent. -/
def parseF32core (cs : List Char) : Option Rat :=
  let sgnRest : Bool × List Char :=
    match cs with
    | '+' :: r => (false, r)
    | '-' :: r => (true, r)
    | r => (false, r)
  let ip := sgnRest.2.takeWhile Char.isDigit
  let cs2 := sgnRest.2.dropWhile Char.isDigit
  match cs2 with
  | '.' :: r =>
    let fp := r.takeWhile Char.isDigit
    let rest := r.dropWhile Char.isDigit
    if ip.isEmpty && fp.isEmpty then none
    else parseExpPart sgnRest.1 ip fp rest
  | rest =>
    if ip.isEmpty then none
    else parseExpPart sgnRest.1 ip [] rest

/-- Models Rust `str::parse::<f32>` (standard library, not repository
code) on its finite-decimal fragment, with exact rational values: no
inf/NaN spellings and no floating-point rounding. -/
def parseF32model (s : String) : Option Rat := parseF32core s.data

/-- Models Rust `str::split(',')`: splits at every comma, keeping empty
fields, so the field count is one more than the comma count. -/
def splitCommaAux : List Char → List Char → List String
  | [], acc => [String.mk acc.reverse]
  | c :: cs, acc =>
      if c = ',' then String.mk acc.reverse :: splitCommaAux cs []
      else splitCommaAux cs (c :: acc)

/-- `response.split(',')` on a whole string. -/
def splitComma (s : String) : List String := splitCommaAux s.data []

/-- One field of a measurement response:
`x.trim().parse::<f32>().ok().unwrap_or(0.0)` (lib.rs line 145). -/
def parseField (x : String) : Rat :=
  match parseF32model (trimModel x) with
  | some v => v
  | none => 0

/-- The response-line parse shared by `read_current`, `read_voltage` and
`read_power` (lib.rs lines 143–152): split on commas, map each field
through the defaulting parse, return the triple when exactly 3 fields
arrived and `(0, 0, 0)` otherwise. -/
def parseMeasurementLine (response : String) : Rat × Rat × Rat :=
  match (splitComma response).map parseField with
  | [a, b, c] => (a, b, c)
  | _ => (0, 0, 0)

/-- `read_current` (lib.rs lines 140–153): write `"FETC:CURR? ALL"`, read
one line, parse it with the defaulting measurement parse. -/
def read_current (st : TS) : TS × RunResult (Rat × Rat × Rat) :=
  match tWrite st "FETC:CURR? ALL" with
  | (st1, Except.error e) => (st1, RunResult.err (Error.VisaApiError e))
  | (st1, Except.ok _) =>
    match tRead st1 with
    | (st2, Except.error e) => (st2, RunResult.err (Error.VisaApiError e))
    | (st2, Except.ok response) => (st2, RunResult.ok (parseMeasurementLine response))

/-- `read_voltage` (lib.rs lines 155–168). -/
def read_voltage (st : TS) : TS × RunResult (Rat × Rat × Rat) :=
  match tWrite st "FETC:VOLT? ALL" with
  | (st1, Except.error e) => (st1, RunResult.err (Error.VisaApiError e))
  | (st1, Except.ok _) =>
    match tRead st1 with
    | (st2, Except.error e) => (st2, RunResult.err (Error.VisaApiError e))
    | (st2, Except.ok response) => (st2, RunResult.ok (parseMeasurementLine response))

/-- `read_power` (lib.rs lines 170–183). -/
def read_power (st : TS) : TS × RunResult (Rat × Rat × Rat) :=
  match tWrite st "FETC:POW? ALL" with
  | (st1, Except.error e) => (st1, RunResult.err (Error.VisaApiError e))
  | (st1, Except.ok _) =>
    match tRead st1 with
    | (st2, Except.error e) => (st2, RunResult.err (Error.VisaApiError e))
    | (st2, Except.ok response) => (st2, RunResult.ok (parseMeasurementLine response))

/-- Modelled from the spec: src/lib.rs has no receive-path decoder for
output states (only the send-path `Display` impls exist); §4.1 of the
spec says the receive path accepts both "ON"/"OFF" and "1"/"0" as
equivalent spellings. -/
def parseState (t : String) : Option ChannelOutputState :=
  if t = "ON" || t = "1" then some ChannelOutputState.ON
  else if t = "OFF" || t = "0" then some ChannelOutputState.OFF
  else none

/-- Modelled from the spec: receive-path decoder for the global output
state, same vocabulary contract as `parseState`. -/
def parsePowerState (t : String) : Option PowerSupplyState :=
  if t = "ON" || t = "1" then some PowerSupplyState.ON
  else if t = "OFF" || t = "0" then some PowerSupplyState.OFF
  else none

/-- Interprets one written command on the device's hidden channel-selection
register (the §3 invariant of the spec): an `INST CH<n>` command moves the
selection, every other command leaves it alone. -/
def applySel (sel : Channel) (cmd : String) : Channel :=
  if cmd = "INST CH1" then Channel.CH1
  else if cmd = "INST CH2" then Channel.CH2
  else if cmd = "INST CH3" then Channel.CH3
  else sel

/-- Device selection register after a command transcript. -/
def deviceSelected (init : Channel) (cmds : List String) : Channel :=
  cmds.foldl applySel init

/-- Boolean list-prefix test, structural for kernel evaluation. -/
def hasPre : List Char → List Char → Bool
  | [], _ => true
  | _ :: _, [] => false
  | p :: ps, c :: cs => p = c && hasPre ps cs

/-- A written command is a channel-selection command exactly when it
starts with `"INST "` (the query `"INST?"` does not). -/
def isSelectCommand (s : String) : Bool := hasPre "INST ".data s.data

/-- A written command toggles the selected channel's output exactly when
it starts with `"CHAN:OUTP"`. -/
def isChanOutpCommand (s : String) : Bool := hasPre "CHAN:OUTP".data s.data

/-- `switch_to_front_panel_control` (lib.rs lines 130–133). -/
def switch_to_front_panel_control (st : TS) : TS × RunResult Unit :=
  match tWrite st "SYST:LOC" with
  | (st1, Except.ok _) => (st1, RunResult.ok ())
  | (st1, Except.error e) => (st1, RunResult.err (Error.VisaApiError e))

/-- `switch_to_front_remote_control` (lib.rs lines 135–138). -/
def switch_to_front_remote_control (st : TS) : TS × RunResult Unit :=
  match tWrite st "SYST:REM" with
  | (st1, Except.ok _) => (st1, RunResult.ok ())
  | (st1, Except.error e) => (st1, RunResult.err (Error.VisaApiError e))

/-- `set_parallel` (lib.rs lines 185–192). -/
def set_parallel (st : TS) (parallel : Parallel) : TS × RunResult Unit :=
  match tWrite st (match parallel with
      | Parallel.ON => "OUTP:PAR CH1CH2"
      | Parallel.OFF => "OUTP:PAR OFF") with
  | (st1, Except.ok _) => (st1, RunResult.ok ())
  | (st1, Except.error e) => (st1, RunResult.err (Error.VisaApiError e))

/-- `set_series` (lib.rs lines 194–201). -/
def set_series (st : TS) (series : Series) : TS × RunResult Unit :=
  match tWrite st (match series with
      | Series.ON => "OUTP:SER ON"
      | Series.OFF => "OUTP:SER OFF") with
  | (st1, Except.ok _) => (st1, RunResult.ok ())
  | (st1, Except.error e) => (st1, RunResult.err (Error.VisaApiError e))

/-! ## Transcript helper lemmas -/

/-- Every transport write logs the attempted command, whatever the script says. -/
theorem writes_after_tWrite (st : TS) (cmd : String) :
    (tWrite st cmd).1.writes = st.writes ++ [cmd] := by
  rcases st with ⟨_ | ⟨o, rest⟩, w⟩
  · rfl
  · cases o <;> rfl

/-- A transport read never touches the write transcript. -/
theorem writes_after_tRead (st : TS) :
    (tRead st).1.writes = st.writes := by
  rcases st with ⟨_ | ⟨o, rest⟩, w⟩
  · rfl
  · cases o <;> rfl

/-- A successful `INST?` round-trip whose response decodes to `A`. -/
theorem get_channel_ok (s : String) (rest : List StepOutcome) (log : List String)
    (A : Channel) (h : parseChannelToken (trimModel s) = some A) :
    get_channel ⟨StepOutcome.writeOk :: StepOutcome.readOk s :: rest, log⟩
      = (⟨rest, log ++ ["INST?"]⟩, RunResult.ok A) := by
  simp [get_channel, tWrite, tRead, h]

/-- A successful channel selection consumes one write outcome and logs
exactly the selection command. -/
theorem select_channel_ok (c : Channel) (rest : List StepOutcome) (log : List String) :
    select_channel ⟨StepOutcome.writeOk :: rest, log⟩ c
      = (⟨rest, log ++ ["INST " ++ c.toWire]⟩, RunResult.ok ()) := rfl

/-! ## Claim theorems -/

/-- C1: for every target channel `B` and output state, when all four
transport round-trips succeed, `enable_channel B state` writes exactly
`"INST?"` (followed by one read), then `"INST <B>"`, then
`"CHAN:OUTP <state>"`, then `"INST <A>"` with `A` the channel decoded
from the read; on success the device's selected channel equals the
channel `A` it had before the call, and at the moment the toggle is
written the device selection targets `B`. -/
theorem C1_enable_channel_success_transcript
    (A B : Channel) (state : ChannelOutputState) (s : String)
    (rest : List StepOutcome) (log : List String)
    (h : parseChannelToken (trimModel s) = some A) :
    enable_channel ⟨StepOutcome.writeOk :: StepOutcome.readOk s ::
        StepOutcome.writeOk :: StepOutcome.writeOk :: StepOutcome.writeOk :: rest, log⟩
        B state
      = (⟨rest, log ++ ["INST?", "INST " ++ B.toWire,
            "CHAN:OUTP " ++ state.toWire, "INST " ++ A.toWire]⟩, RunResult.ok ())
    ∧ deviceSelected A ["INST?", "INST " ++ B.toWire,
        "CHAN:OUTP " ++ state.toWire, "INST " ++ A.toWire] = A
    ∧ deviceSelected A ["INST?", "INST " ++ B.toWire] = B := by
  refine ⟨?_, ?_, ?_⟩
  · simp [enable_channel, get_channel_ok _ _ _ _ h, select_channel_ok, tWrite]
  · cases A <;> cases B <;> cases state <;> decide
  · cases A <;> cases B <;> decide

/-- C1 witness: concrete successful run with previous channel CH1 and
target CH2. -/
theorem C1_enable_channel_success_transcript_witness :
    enable_channel ⟨[StepOutcome.writeOk, StepOutcome.readOk "CH1",
        StepOutcome.writeOk, StepOutcome.writeOk, StepOutcome.writeOk], []⟩
        Channel.CH2 ChannelOutputState.ON
      = (⟨[], ["INST?", "INST " ++ Channel.toWire Channel.CH2,
            "CHAN:OUTP " ++ ChannelOutputState.toWire ChannelOutputState.ON,
            "INST " ++ Channel.toWire Channel.CH1]⟩, RunResult.ok ()) :=
  (C1_enable_channel_success_transcript Channel.CH1 Channel.CH2
    ChannelOutputState.ON "CH1" [] [] (by decide)).1

/-- C2 counterexample: on the unrecognized response token `"CH9"`,
`get_channel` does not return an error value at all — it hits
`unreachable!()`, modelled as `RunResult.crash` — refuting the claim
that the failure is an ordinary returned error rather than a crash. -/
theorem C2_counterexample_get_channel_CH9 :
    get_channel ⟨[StepOutcome.writeOk, StepOutcome.readOk "CH9"], []⟩
      = (⟨[], ["INST?"]⟩, RunResult.crash) := by decide

/-- C2 (amended): for every response whose trimmed content is not one of
`"CH1"`, `"CH2"`, `"CH3"`, `get_channel` never coerces the token to a
default channel value — but instead of returning an error it aborts the
process (`unreachable!()`), modelled as `RunResult.crash`. -/
theorem C2_get_channel_unrecognized_crashes
    (s : String) (rest : List StepOutcome) (log : List String)
    (h : parseChannelToken (trimModel s) = none) :
    get_channel ⟨StepOutcome.writeOk :: StepOutcome.readOk s :: rest, log⟩
      = (⟨rest, log ++ ["INST?"]⟩, RunResult.crash) := by
  simp [get_channel, tWrite, tRead, h]

/-- C2 witness: the amended behavior at the concrete token `"CH9"`. -/
theorem C2_get_channel_unrecognized_crashes_witness :
    get_channel ⟨[StepOutcome.writeOk, StepOutcome.readOk "CH9"],
        ["SYST:REM"]⟩
      = (⟨[], ["SYST:REM"] ++ ["INST?"]⟩, RunResult.crash) :=
  C2_get_channel_unrecognized_crashes "CH9" [] ["SYST:REM"] (by decide)

/-- C3: whichever of the four steps of `enable_channel` fails — the
`"INST?"` write of step 1, the read of step 1, the target selection of
step 2, the `"CHAN:OUTP <state>"` write of step 3 or the restoring
selection of step 4 — `enable_channel` returns that underlying transport
error unchanged and performs no further transport operations: the
returned state's script is exactly the unconsumed remainder, and the
transcript holds exactly the commands attempted up to and including the
failing one. In the step-3 case exactly one selection command
(`"INST <target>"`) was written before the failure and the restoring
`"INST <previous>"` write of step 4 is never issued. -/
theorem C3_enable_channel_step_failures
    (A B : Channel) (state : ChannelOutputState) (e : VisaError)
    (s : String) (rest : List StepOutcome) (log : List String)
    (h : parseChannelToken (trimModel s) = some A) :
    enable_channel ⟨StepOutcome.writeErr e :: rest, log⟩ B state
      = (⟨rest, log ++ ["INST?"]⟩, RunResult.err (Error.VisaApiError e))
    ∧ enable_channel ⟨StepOutcome.writeOk :: StepOutcome.readErr e :: rest, log⟩
        B state
      = (⟨rest, log ++ ["INST?"]⟩, RunResult.err (Error.VisaApiError e))
    ∧ enable_channel ⟨StepOutcome.writeOk :: StepOutcome.readOk s ::
        StepOutcome.writeErr e :: rest, log⟩ B state
      = (⟨rest, log ++ ["INST?", "INST " ++ B.toWire]⟩,
         RunResult.err (Error.VisaApiError e))
    ∧ enable_channel ⟨StepOutcome.writeOk :: StepOutcome.readOk s ::
        StepOutcome.writeOk :: StepOutcome.writeErr e :: rest, log⟩ B state
      = (⟨rest, log ++ ["INST?", "INST " ++ B.toWire,
            "CHAN:OUTP " ++ state.toWire]⟩,
         RunResult.err (Error.VisaApiError e))
    ∧ enable_channel ⟨StepOutcome.writeOk :: StepOutcome.readOk s ::
        StepOutcome.writeOk :: StepOutcome.writeOk ::
        StepOutcome.writeErr e :: rest, log⟩ B state
      = (⟨rest, log ++ ["INST?", "INST " ++ B.toWire,
            "CHAN:OUTP " ++ state.toWire, "INST " ++ A.toWire]⟩,
         RunResult.err (Error.VisaApiError e))
    ∧ (List.filter isSelectCommand
        ["INST?", "INST " ++ B.toWire, "CHAN:OUTP " ++ state.toWire]).length = 1 := by
  refine ⟨?_, ?_, ?_, ?_, ?_, ?_⟩
  · simp [enable_channel, get_channel, tWrite]
  · simp [enable_channel, get_channel, tWrite, tRead]
  · simp [enable_channel, get_channel_ok _ _ _ _ h, select_channel, tWrite]
  · simp [enable_channel, get_channel_ok _ _ _ _ h, select_channel_ok, tWrite]
  · simp [enable_channel, get_channel_ok _ _ _ _ h, select_channel_ok,
      select_channel, tWrite]
  · cases B <;> cases state <;> decide

/-- C3 witness: concrete step-3 failure with previous channel CH3 and
target CH1. -/
theorem C3_enable_channel_step_failures_witness :
    enable_channel ⟨[StepOutcome.writeOk, StepOutcome.readOk " CH3",
        StepOutcome.writeOk, StepOutcome.writeErr (VisaError.mk 7)], []⟩
        Channel.CH1 ChannelOutputState.OFF
      = (⟨[], ["INST?", "INST " ++ Channel.toWire Channel.CH1,
            "CHAN:OUTP " ++ ChannelOutputState.toWire ChannelOutputState.OFF]⟩,
         RunResult.err (Error.VisaApiError (VisaError.mk 7))) :=
  (C3_enable_channel_step_failures Channel.CH3 Channel.CH1
    ChannelOutputState.OFF (VisaError.mk 7) " CH3" [] [] (by decide)).2.2.2.1

/-- A response line that does not split into exactly 3 comma-separated
fields parses to the degraded triple. -/
theorem parseMeasurementLine_bad_shape (s : String)
    (h : (splitComma s).length ≠ 3) : parseMeasurementLine s = (0, 0, 0) := by
  unfold parseMeasurementLine
  rcases hsp : splitComma s with _ | ⟨a, _ | ⟨b, _ | ⟨c, _ | ⟨d, t⟩⟩⟩⟩
  · rfl
  · rfl
  · rfl
  · exact absurd (by rw [hsp]; rfl) h
  · rfl

/-- C4: on a response line with exactly 3 comma-separated fields, the
measurement parse maps each field independently to its trimmed numeric
value, substituting 0 for a field that fails to parse and preserving the
successfully parsed fields in channel order; `"1.0,bad,3.0"` yields
`(1, 0, 3)`. -/
theorem C4_measurement_fields_independent
    (s x y z : String) (h : splitComma s = [x, y, z]) :
    parseMeasurementLine s = (parseField x, parseField y, parseField z)
    ∧ (∀ v, parseF32model (trimModel x) = some v → parseField x = v)
    ∧ (parseF32model (trimModel x) = none → parseField x = 0)
    ∧ parseMeasurementLine "1.0,bad,3.0" = (1, 0, 3) := by
  refine ⟨?_, ?_, ?_, by decide⟩
  · simp [parseMeasurementLine, h]
  · intro v hv; simp [parseField, hv]
  · intro hv; simp [parseField, hv]

/-- C4 witness: the parse at the concrete line `"1.0,bad,3.0"`. -/
theorem C4_measurement_fields_independent_witness :
    splitComma "1.0,bad,3.0" = ["1.0", "bad", "3.0"]
    ∧ parseMeasurementLine "1.0,bad,3.0"
      = (parseField "1.0", parseField "bad", parseField "3.0") :=
  ⟨by decide,
   (C4_measurement_fields_independent "1.0,bad,3.0" "1.0" "bad" "3.0" (by decide)).1⟩

/-- C5: on a response line whose comma-separated field count is not
exactly 3, the measurement parse degrades to `(0, 0, 0)`, and
`read_current`, `read_voltage` and `read_power` still return that triple
successfully rather than an error; `"1.0,2.0"` yields `(0, 0, 0)`. -/
theorem C5_measurement_shape_degrades
    (s : String) (rest : List StepOutcome) (log : List String)
    (h : (splitComma s).length ≠ 3) :
    parseMeasurementLine s = (0, 0, 0)
    ∧ (read_current ⟨StepOutcome.writeOk :: StepOutcome.readOk s :: rest, log⟩).2
        = RunResult.ok (0, 0, 0)
    ∧ (read_voltage ⟨StepOutcome.writeOk :: StepOutcome.readOk s :: rest, log⟩).2
        = RunResult.ok (0, 0, 0)
    ∧ (read_power ⟨StepOutcome.writeOk :: StepOutcome.readOk s :: rest, log⟩).2
        = RunResult.ok (0, 0, 0)
    ∧ parseMeasurementLine "1.0,2.0" = (0, 0, 0) := by
  have hline := parseMeasurementLine_bad_shape s h
  refine ⟨hline, ?_, ?_, ?_, by decide⟩ <;>
    simp [read_current, read_voltage, read_power, tWrite, tRead, hline]

/-- C5 witness: the degradation at the concrete line `"1.0,2.0"`. -/
theorem C5_measurement_shape_degrades_witness :
    (read_current ⟨[StepOutcome.writeOk, StepOutcome.readOk "1.0,2.0"], []⟩).2
      = RunResult.ok (0, 0, 0) :=
  (C5_measurement_shape_degrades "1.0,2.0" [] [] (by decide)).2.1

/-- C6: `read_current`, `read_voltage` and `read_power` never let the
content of the response cause a failure: whenever the transport write
and read both succeed, they return `ok` of the parsed triple for every
response string, and none of them can crash; an error can therefore
only originate in the transport itself. -/
theorem C6_read_ops_error_only_from_transport :
    (∀ (s : String) (rest : List StepOutcome) (log : List String),
        read_current ⟨StepOutcome.writeOk :: StepOutcome.readOk s :: rest, log⟩
          = (⟨rest, log ++ ["FETC:CURR? ALL"]⟩, RunResult.ok (parseMeasurementLine s)))
    ∧ (∀ (s : String) (rest : List StepOutcome) (log : List String),
        read_voltage ⟨StepOutcome.writeOk :: StepOutcome.readOk s :: rest, log⟩
          = (⟨rest, log ++ ["FETC:VOLT? ALL"]⟩, RunResult.ok (parseMeasurementLine s)))
    ∧ (∀ (s : String) (rest : List StepOutcome) (log : List String),
        read_power ⟨StepOutcome.writeOk :: StepOutcome.readOk s :: rest, log⟩
          = (⟨rest, log ++ ["FETC:POW? ALL"]⟩, RunResult.ok (parseMeasurementLine s)))
    ∧ (∀ st : TS, (read_current st).2 ≠ RunResult.crash)
    ∧ (∀ st : TS, (read_voltage st).2 ≠ RunResult.crash)
    ∧ (∀ st : TS, (read_power st).2 ≠ RunResult.crash) := by
  refine ⟨?_, ?_, ?_, ?_, ?_, ?_⟩
  · intro s rest log; simp [read_current, tWrite, tRead]
  · intro s rest log; simp [read_voltage, tWrite, tRead]
  · intro s rest log; simp [read_power, tWrite, tRead]
  all_goals
    intro st
    rcases st with ⟨_ | ⟨o, rest⟩, w⟩
    case mk.nil => simp [read_current, read_voltage, read_power, tWrite, tRead]
    case mk.cons =>
      cases o
      case writeOk =>
        rcases rest with _ | ⟨o2, rest2⟩
        · simp [read_current, read_voltage, read_power, tWrite, tRead]
        · cases o2 <;> simp [read_current, read_voltage, read_power, tWrite, tRead]
      all_goals simp [read_current, read_voltage, read_power, tWrite, tRead]

/-- C7: the output-state vocabulary round-trips: decoding the string the
send path emits yields the original value for both ON and OFF (for the
per-channel and the global state alike), the receive path additionally
accepts the `"1"`/`"0"` spellings, and the send path emits exactly
`"ON"`/`"OFF"`. -/
theorem C7_state_vocabulary_roundtrip :
    parseState (ChannelOutputState.toWire ChannelOutputState.ON)
      = some ChannelOutputState.ON
    ∧ parseState (ChannelOutputState.toWire ChannelOutputState.OFF)
      = some ChannelOutputState.OFF
    ∧ parsePowerState (PowerSupplyState.toWire PowerSupplyState.ON)
      = some PowerSupplyState.ON
    ∧ parsePowerState (PowerSupplyState.toWire PowerSupplyState.OFF)
      = some PowerSupplyState.OFF
    ∧ parseState "1" = some ChannelOutputState.ON
    ∧ parseState "0" = some ChannelOutputState.OFF
    ∧ parsePowerState "1" = some PowerSupplyState.ON
    ∧ parsePowerState "0" = some PowerSupplyState.OFF
    ∧ ChannelOutputState.toWire ChannelOutputState.ON = "ON"
    ∧ ChannelOutputState.toWire ChannelOutputState.OFF = "OFF"
    ∧ PowerSupplyState.toWire PowerSupplyState.ON = "ON"
    ∧ PowerSupplyState.toWire PowerSupplyState.OFF = "OFF" := by decide

/-- C8: for every channel, `select_channel` writes exactly the command
`"INST CH<n>"` with `<n>` in {1,2,3} and performs no read: it consumes a
single write outcome, leaving the rest of the script untouched. -/
theorem C8_select_channel_exact_command
    (rest : List StepOutcome) (log : List String) :
    select_channel ⟨StepOutcome.writeOk :: rest, log⟩ Channel.CH1
      = (⟨rest, log ++ ["INST CH1"]⟩, RunResult.ok ())
    ∧ select_channel ⟨StepOutcome.writeOk :: rest, log⟩ Channel.CH2
      = (⟨rest, log ++ ["INST CH2"]⟩, RunResult.ok ())
    ∧ select_channel ⟨StepOutcome.writeOk :: rest, log⟩ Channel.CH3
      = (⟨rest, log ++ ["INST CH3"]⟩, RunResult.ok ()) :=
  ⟨rfl, rfl, rfl⟩

/-- C9: `set_parallel` writes exactly `"OUTP:PAR CH1CH2"` for `Parallel.ON`
and `"OUTP:PAR OFF"` for `Parallel.OFF` — for every transport state the
only command attempted is that one — and on a successful write it
consumes exactly one write outcome and returns `ok`. -/
theorem C9_set_parallel_exact_commands :
    (∀ st : TS, (set_parallel st Parallel.ON).1.writes
        = st.writes ++ ["OUTP:PAR CH1CH2"])
    ∧ (∀ st : TS, (set_parallel st Parallel.OFF).1.writes
        = st.writes ++ ["OUTP:PAR OFF"])
    ∧ (∀ (rest : List StepOutcome) (log : List String),
        set_parallel ⟨StepOutcome.writeOk :: rest, log⟩ Parallel.ON
          = (⟨rest, log ++ ["OUTP:PAR CH1CH2"]⟩, RunResult.ok ()))
    ∧ (∀ (rest : List StepOutcome) (log : List String),
        set_parallel ⟨StepOutcome.writeOk :: rest, log⟩ Parallel.OFF
          = (⟨rest, log ++ ["OUTP:PAR OFF"]⟩, RunResult.ok ())) := by
  refine ⟨?_, ?_, fun rest log => rfl, fun rest log => rfl⟩ <;>
    · intro st
      rcases st with ⟨_ | ⟨o, rest⟩, w⟩
      · rfl
      · cases o <;> rfl

/-! ## Write-transcript lemmas for every public operation -/

/-- `enable_output` always attempts exactly its one command. -/
theorem enable_output_writes (st : TS) (s1 : PowerSupplyState) :
    (enable_output st s1).1.writes
      = st.writes ++ ["OUTP:ENAB " ++ s1.toWire] := by
  rcases st with ⟨_ | ⟨o, rest⟩, w⟩
  · rfl
  · cases o <;> rfl

/-- `enable_channels` always attempts exactly its one command. -/
theorem enable_channels_writes (st : TS) (s2 : ChannelOutputState) :
    (enable_channels st s2).1.writes
      = st.writes ++ ["OUTP:ENAB " ++ s2.toWire] := by
  rcases st with ⟨_ | ⟨o, rest⟩, w⟩
  · rfl
  · cases o <;> rfl

/-- `set_channel` always attempts exactly its one command. -/
theorem set_channel_writes (st : TS) (c : Channel) (voltage current : String) :
    (set_channel st c voltage current).1.writes
      = st.writes ++ ["APPL " ++ c.toWire ++ ", " ++ voltage ++ ", " ++ current] := by
  rcases st with ⟨_ | ⟨o, rest⟩, w⟩
  · rfl
  · cases o <;> rfl

/-- `select_channel` always attempts exactly its one command. -/
theorem select_channel_writes (st : TS) (c : Channel) :
    (select_channel st c).1.writes = st.writes ++ ["INST " ++ c.toWire] := by
  rcases st with ⟨_ | ⟨o, rest⟩, w⟩
  · rfl
  · cases o <;> rfl

/-- `switch_to_front_panel_control` always attempts exactly `SYST:LOC`. -/
theorem switch_to_front_panel_control_writes (st : TS) :
    (switch_to_front_panel_control st).1.writes = st.writes ++ ["SYST:LOC"] := by
  rcases st with ⟨_ | ⟨o, rest⟩, w⟩
  · rfl
  · cases o <;> rfl

/-- `switch_to_front_remote_control` always attempts exactly `SYST:REM`. -/
theorem switch_to_front_remote_control_writes (st : TS) :
    (switch_to_front_remote_control st).1.writes = st.writes ++ ["SYST:REM"] := by
  rcases st with ⟨_ | ⟨o, rest⟩, w⟩
  · rfl
  · cases o <;> rfl

/-- `set_parallel` always attempts exactly its one command. -/
theorem set_parallel_writes_on (st : TS) :
    (set_parallel st Parallel.ON).1.writes = st.writes ++ ["OUTP:PAR CH1CH2"] := by
  rcases st with ⟨_ | ⟨o, rest⟩, w⟩
  · rfl
  · cases o <;> rfl

/-- `set_parallel` always attempts exactly its one command. -/
theorem set_parallel_writes_off (st : TS) :
    (set_parallel st Parallel.OFF).1.writes = st.writes ++ ["OUTP:PAR OFF"] := by
  rcases st with ⟨_ | ⟨o, rest⟩, w⟩
  · rfl
  · cases o <;> rfl

/-- `set_series` always attempts exactly its one command. -/
theorem set_series_writes_on (st : TS) :
    (set_series st Series.ON).1.writes = st.writes ++ ["OUTP:SER ON"] := by
  rcases st with ⟨_ | ⟨o, rest⟩, w⟩
  · rfl
  · cases o <;> rfl

/-- `set_series` always attempts exactly its one command. -/
theorem set_series_writes_off (st : TS) :
    (set_series st Series.OFF).1.writes = st.writes ++ ["OUTP:SER OFF"] := by
  rcases st with ⟨_ | ⟨o, rest⟩, w⟩
  · rfl
  · cases o <;> rfl

/-- `get_channel` attempts exactly the query `INST?`, in every branch. -/
theorem get_channel_writes (st : TS) :
    (get_channel st).1.writes = st.writes ++ ["INST?"] := by
  rcases st with ⟨_ | ⟨o, rest⟩, w⟩
  · rfl
  · cases o
    case writeOk =>
      rcases rest with _ | ⟨o2, rest2⟩
      · rfl
      · cases o2
        case readOk s =>
          rcases hp : parseChannelToken (trimModel s) with _ | c <;>
            simp [get_channel, tWrite, tRead, hp]
        all_goals rfl
    all_goals rfl

/-- `read_current` attempts exactly its query command, in every branch. -/
theorem read_current_writes (st : TS) :
    (read_current st).1.writes = st.writes ++ ["FETC:CURR? ALL"] := by
  rcases st with ⟨_ | ⟨o, rest⟩, w⟩
  · rfl
  · cases o
    case writeOk =>
      rcases rest with _ | ⟨o2, rest2⟩
      · rfl
      · cases o2 <;> rfl
    all_goals rfl

/-- `read_voltage` attempts exactly its query command, in every branch. -/
theorem read_voltage_writes (st : TS) :
    (read_voltage st).1.writes = st.writes ++ ["FETC:VOLT? ALL"] := by
  rcases st with ⟨_ | ⟨o, rest⟩, w⟩
  · rfl
  · cases o
    case writeOk =>
      rcases rest with _ | ⟨o2, rest2⟩
      · rfl
      · cases o2 <;> rfl
    all_goals rfl

/-- `read_power` attempts exactly its query command, in every branch. -/
theorem read_power_writes (st : TS) :
    (read_power st).1.writes = st.writes ++ ["FETC:POW? ALL"] := by
  rcases st with ⟨_ | ⟨o, rest⟩, w⟩
  · rfl
  · cases o
    case writeOk =>
      rcases rest with _ | ⟨o2, rest2⟩
      · rfl
      · cases o2 <;> rfl
    all_goals rfl

/-- A command whose first character is not `C` does not start with
`CHAN:OUTP`. -/
theorem hasPre_chanOutp_cons (c : Char) (l : List Char) (h : c ≠ 'C') :
    hasPre "CHAN:OUTP".data (c :: l) = false := by
  have e1 : hasPre "CHAN:OUTP".data (c :: l)
      = (decide ('C' = c) && hasPre "HAN:OUTP".data l) := rfl
  rw [e1, decide_eq_false (fun hh => h hh.symm), Bool.false_and]

/-- The `APPL` command of `set_channel` never spells `CHAN:OUTP`, for
any channel and any rendered voltage and current. -/
theorem set_channel_cmd_chanOutpFree (c : Channel) (voltage current : String) :
    isChanOutpCommand
      ("APPL " ++ c.toWire ++ ", " ++ voltage ++ ", " ++ current) = false := by
  have h5 : "APPL ".data = 'A' :: "PPL ".data := rfl
  simp only [isChanOutpCommand, String.data_append, h5, List.cons_append]
  exact hasPre_chanOutp_cons _ _ (by decide)

/-- C10: `enable_output` and `enable_channels` are observationally
equivalent — whenever their states render to the same wire token they
produce identical results on every transport state, and on a successful
write each emits the single command `"OUTP:ENAB <s>"` with no read —
and no public operation other than `enable_channel` ever emits a
`CHAN:OUTP` command: every other operation's write transcript is exactly
one command that does not start with `"CHAN:OUTP"`. -/
theorem C10_enable_output_equiv_no_chan_outp :
    (∀ (st : TS) (s1 : PowerSupplyState) (s2 : ChannelOutputState),
        PowerSupplyState.toWire s1 = ChannelOutputState.toWire s2 →
        enable_output st s1 = enable_channels st s2)
    ∧ (∀ (rest : List StepOutcome) (log : List String) (s1 : PowerSupplyState),
        enable_output ⟨StepOutcome.writeOk :: rest, log⟩ s1
          = (⟨rest, log ++ ["OUTP:ENAB " ++ s1.toWire]⟩, RunResult.ok ()))
    ∧ (∀ (rest : List StepOutcome) (log : List String) (s2 : ChannelOutputState),
        enable_channels ⟨StepOutcome.writeOk :: rest, log⟩ s2
          = (⟨rest, log ++ ["OUTP:ENAB " ++ s2.toWire]⟩, RunResult.ok ()))
    ∧ (∀ (st : TS) (s1 : PowerSupplyState),
        (enable_output st s1).1.writes = st.writes ++ ["OUTP:ENAB " ++ s1.toWire]
        ∧ isChanOutpCommand ("OUTP:ENAB " ++ s1.toWire) = false)
    ∧ (∀ (st : TS) (s2 : ChannelOutputState),
        (enable_channels st s2).1.writes = st.writes ++ ["OUTP:ENAB " ++ s2.toWire]
        ∧ isChanOutpCommand ("OUTP:ENAB " ++ s2.toWire) = false)
    ∧ (∀ (st : TS) (c : Channel) (voltage current : String),
        (set_channel st c voltage current).1.writes
          = st.writes ++ ["APPL " ++ c.toWire ++ ", " ++ voltage ++ ", " ++ current]
        ∧ isChanOutpCommand
            ("APPL " ++ c.toWire ++ ", " ++ voltage ++ ", " ++ current) = false)
    ∧ (∀ st : TS, (get_channel st).1.writes = st.writes ++ ["INST?"]
        ∧ isChanOutpCommand "INST?" = false)
    ∧ (∀ (st : TS) (c : Channel),
        (select_channel st c).1.writes = st.writes ++ ["INST " ++ c.toWire]
        ∧ isChanOutpCommand ("INST " ++ c.toWire) = false)
    ∧ (∀ st : TS, (switch_to_front_panel_control st).1.writes
          = st.writes ++ ["SYST:LOC"]
        ∧ isChanOutpCommand "SYST:LOC" = false)
    ∧ (∀ st : TS, (switch_to_front_remote_control st).1.writes
          = st.writes ++ ["SYST:REM"]
        ∧ isChanOutpCommand "SYST:REM" = false)
    ∧ (∀ st : TS, (read_current st).1.writes = st.writes ++ ["FETC:CURR? ALL"]
        ∧ isChanOutpCommand "FETC:CURR? ALL" = false)
    ∧ (∀ st : TS, (read_voltage st).1.writes = st.writes ++ ["FETC:VOLT? ALL"]
        ∧ isChanOutpCommand "FETC:VOLT? ALL" = false)
    ∧ (∀ st : TS, (read_power st).1.writes = st.writes ++ ["FETC:POW? ALL"]
        ∧ isChanOutpCommand "FETC:POW? ALL" = false)
    ∧ (∀ st : TS, (set_parallel st Parallel.ON).1.writes
          = st.writes ++ ["OUTP:PAR CH1CH2"]
        ∧ isChanOutpCommand "OUTP:PAR CH1CH2" = false)
    ∧ (∀ st : TS, (set_parallel st Parallel.OFF).1.writes
          = st.writes ++ ["OUTP:PAR OFF"]
        ∧ isChanOutpCommand "OUTP:PAR OFF" = false)
    ∧ (∀ st : TS, (set_series st Series.ON).1.writes
          = st.writes ++ ["OUTP:SER ON"]
        ∧ isChanOutpCommand "OUTP:SER ON" = false)
    ∧ (∀ st : TS, (set_series st Series.OFF).1.writes
          = st.writes ++ ["OUTP:SER OFF"]
        ∧ isChanOutpCommand "OUTP:SER OFF" = false) := by
  refine ⟨?_, fun rest log s1 => rfl, fun rest log s2 => rfl,
    fun st s1 => ⟨enable_output_writes st s1, by cases s1 <;> decide⟩,
    fun st s2 => ⟨enable_channels_writes st s2, by cases s2 <;> decide⟩,
    fun st c voltage current => ⟨set_channel_writes st c voltage current,
      set_channel_cmd_chanOutpFree c voltage current⟩,
    fun st => ⟨get_channel_writes st, by decide⟩,
    fun st c => ⟨select_channel_writes st c, by cases c <;> decide⟩,
    fun st => ⟨switch_to_front_panel_control_writes st, by decide⟩,
    fun st => ⟨switch_to_front_remote_control_writes st, by decide⟩,
    fun st => ⟨read_current_writes st, by decide⟩,
    fun st => ⟨read_voltage_writes st, by decide⟩,
    fun st => ⟨read_power_writes st, by decide⟩,
    fun st => ⟨set_parallel_writes_on st, by decide⟩,
    fun st => ⟨set_parallel_writes_off st, by decide⟩,
    fun st => ⟨set_series_writes_on st, by decide⟩,
    fun st => ⟨set_series_writes_off st, by decide⟩⟩
  intro st s1 s2 hw
  simp [enable_output, enable_channels, hw]

/-- C10 witness: the equivalence discharged at ON on the empty script. -/
theorem C10_enable_output_equiv_no_chan_outp_witness :
    enable_output ⟨[], []⟩ PowerSupplyState.ON
      = enable_channels ⟨[], []⟩ ChannelOutputState.ON :=
  C10_enable_output_equiv_no_chan_outp.1 ⟨[], []⟩
    PowerSupplyState.ON ChannelOutputState.ON (by decide)

end Keithley2230
